import Mathlib

/-!
Verification development for the Dining Concierge Lex hook
(`src/Lambda Functions/LF1.py`).

The Python module is embedded shallowly:
* dict-shaped Lex events and responses become structures with `Option`
  fields for optional keys;
* every function that can raise an uncaught Python exception returns
  `Except String _`, the `.error` case standing for the raised exception;
* the external SQS client (`boto3`) is a parameter
  `client : DinningDetails → Except String String`, `.error` standing for
  a raised exception of the SDK call;
* the process clock (`datetime.now().date()` under the America/New_York
  timezone set by `lambda_handler`) is a parameter `today : Date`;
* the two library date parsers are modelled by executable functions:
  `strptime_Y_m_d` models `datetime.strptime(_, "%Y-%m-%d")` (4-digit
  year, 1-2 digit month and day, real calendar dates only), and
  `dateutil_parse` models `dateutil.parser.parse` restricted to the
  dashed `YYYY-MM-DD` and the US slash `M/D/YYYY` forms; every other
  string is treated as unparsable.  `int(...)` is modelled by `pyInt`
  (optional surrounding whitespace, optional sign, decimal digits) and
  `str.lower()` by `str_lower` (ASCII lowering).
-/

deriving instance DecidableEq for Except

namespace LF1

/-- Calendar date as produced by `datetime.date`. -/
structure Date where
  year : Nat
  month : Nat
  day : Nat
deriving DecidableEq

/-- Numeric key under which comparison of valid calendar dates agrees with
the comparison of Python `date` objects. -/
def Date.key (d : Date) : Nat :=
  d.year * 10000 + d.month * 100 + d.day

/-- Leap-year rule of the Gregorian calendar, as used by `datetime`. -/
def isLeapYear (y : Nat) : Bool :=
  y % 4 == 0 && (y % 100 != 0 || y % 400 == 0)

/-- Number of days of month `m` in year `y`, as validated by `datetime`. -/
def daysInMonth (y m : Nat) : Nat :=
  if m == 2 then (if isLeapYear y then 29 else 28)
  else if m == 4 || m == 6 || m == 9 || m == 11 then 30
  else 31

/-- The date is one `datetime.date` accepts: month 1..12, day within the
month, year at least `datetime.MINYEAR = 1`. -/
def ValidDate (d : Date) : Prop :=
  1 ≤ d.year ∧ 1 ≤ d.month ∧ d.month ≤ 12 ∧ 1 ≤ d.day ∧ d.day ≤ daysInMonth d.year d.month

instance (d : Date) : Decidable (ValidDate d) := by
  unfold ValidDate; infer_instance

/-- Next calendar day (used to state that a reservation date one day in the
future is accepted). -/
def Date.succ (d : Date) : Date :=
  if d.day < daysInMonth d.year d.month then ⟨d.year, d.month, d.day + 1⟩
  else if d.month < 12 then ⟨d.year, d.month + 1, 1⟩
  else ⟨d.year + 1, 1, 1⟩

/-- Splitting a character list at a separator, the semantics of Python
`str.split(sep)` for a one-character separator. -/
def splitOnChar (sep : Char) : List Char → List (List Char)
  | [] => [[]]
  | c :: rest =>
    if c == sep then [] :: splitOnChar sep rest
    else
      match splitOnChar sep rest with
      | h :: t => (c :: h) :: t
      | [] => [[c]]

/-- Decimal value of a digit string. -/
def digitsToNat (l : List Char) : Nat :=
  l.foldl (fun a c => a * 10 + (c.toNat - 48)) 0

/-- One- or two-digit component, as matched by the strptime patterns for
`%m` and `%d`. -/
def parseComp12 (l : List Char) : Option Nat :=
  if l.isEmpty || !l.all Char.isDigit || decide (2 < l.length) then none
  else some (digitsToNat l)

/-- Exactly four digits, the strptime pattern for `%Y`. -/
def parseYear4 (l : List Char) : Option Nat :=
  if l.all Char.isDigit && l.length == 4 then some (digitsToNat l) else none

/-- Components are assembled into a date only when `datetime.date` would
accept them. -/
def mkValidDate (y m d : Nat) : Option Date :=
  if 1 ≤ y ∧ 1 ≤ m ∧ m ≤ 12 ∧ 1 ≤ d ∧ d ≤ daysInMonth y m then some ⟨y, m, d⟩
  else none

/-- Model of `datetime.strptime(s, "%Y-%m-%d").date()`: `none` stands for
the `ValueError` the call raises on any other input. -/
def strptime_Y_m_d (s : String) : Option Date :=
  match splitOnChar '-' s.data with
  | [ys, ms, ds] =>
    match parseYear4 ys, parseComp12 ms, parseComp12 ds with
    | some y, some m, some d => mkValidDate y m d
    | _, _, _ => none
  | _ => none

/-- Model of `dateutil.parser.parse` restricted to the dashed ISO form and
the US slash form `M/D/YYYY`; other strings are treated as unparsable. -/
def parse_M_D_Y (s : String) : Option Date :=
  match splitOnChar '/' s.data with
  | [ms, ds, ys] =>
    match parseComp12 ms, parseComp12 ds, parseYear4 ys with
    | some m, some d, some y => mkValidDate y m d
    | _, _, _ => none
  | _ => none

/-- Lenient date parse used by `is_valid_date` (see the module docstring for
the modelled fragment of `dateutil.parser.parse`). -/
def dateutil_parse (s : String) : Option Date :=
  match strptime_Y_m_d s with
  | some d => some d
  | none => parse_M_D_Y s

/-- Strips leading and trailing whitespace, as `int(str)` does. -/
def pyStrip (l : List Char) : List Char :=
  ((l.dropWhile Char.isWhitespace).reverse.dropWhile Char.isWhitespace).reverse

/-- Nonempty all-digit run, else `none`. -/
def decDigits (l : List Char) : Option Nat :=
  if l.isEmpty || !l.all Char.isDigit then none else some (digitsToNat l)

/-- Model of Python `int(s)` for a string argument: optional surrounding
whitespace, optional sign, one or more decimal digits; `none` stands for
the `ValueError` raised on any other input. -/
def pyInt (s : String) : Option Int :=
  match pyStrip s.data with
  | '+' :: ds => (decDigits ds).map Int.ofNat
  | '-' :: ds => (decDigits ds).map (fun n => -(Int.ofNat n : Int))
  | ds => (decDigits ds).map Int.ofNat

/-- ASCII lowering, the behaviour of `str.lower()` on the inputs the bot
deals in. -/
def str_lower (s : String) : String :=
  ⟨s.data.map Char.toLower⟩

/-- Inside the domain part of the email pattern: true when some later
position `j ≥ 1` holds a dot preceded only by non-at characters and
followed by a non-at character (the backtracking semantics of
`[^@]+\.[^@]+`). -/
def hasDotTld : List Char → Bool
  | [] => false
  | c :: rest =>
    if c == '@' then false
    else
      match rest with
      | '.' :: d :: _ => if d != '@' then true else hasDotTld rest
      | _ => hasDotTld rest

/-- Scans past the (nonempty) local part up to the first at sign, then
checks the domain part. -/
def emailAfterLocal : List Char → Bool
  | [] => false
  | c :: rest => if c == '@' then hasDotTld rest else emailAfterLocal rest

/-- Slot value as delivered by Lex: the dict
`{value: {interpretedValue: string}}`. -/
structure SlotValue where
  interpretedValue : String
deriving DecidableEq

/-- Slot mapping of the DiningSuggestionsIntent, with the exact slot names
the code reads (`LF1.py`, lines 122-128); a missing key and a key stored
with value `None` are both `none`, matching the truthiness and
`is not None` tests of the code. -/
structure Slots where
  location : Option SlotValue
  cuisine : Option SlotValue
  reservationDate : Option SlotValue
  reservationTime : Option SlotValue
  numberOfPeople : Option SlotValue
  email : Option SlotValue
  phone_number : Option SlotValue
deriving DecidableEq

/-- Result dict of the validator; the final `return {'isValid': True}` has
neither a `violatedSlot` nor a `message` key, hence the `Option` fields. -/
structure ValidationResult where
  isValid : Bool
  violatedSlot : Option String
  message : Option String
deriving DecidableEq

/-- Transcription of `build_validation_result` (LF1.py, lines 89-94). -/
def build_validation_result (isvalid : Bool) (violated_slot : String)
    (message_content : String) : ValidationResult :=
  ⟨isvalid, some violated_slot, some message_content⟩

/-- Transcription of `is_valid_location` (LF1.py, lines 96-98). -/
def is_valid_location (city : String) : Bool :=
  ["new york", "manhattan", "brooklyn", "nyc"].contains (str_lower city)

/-- Transcription of `is_valid_cuisine` (LF1.py, lines 101-104). -/
def is_valid_cuisine (cuisine : String) : Bool :=
  ["indian", "desi", "american", "vegetarian", "seafood", "chinese",
   "korean", "mexican", "mediterranean", "vegan"].contains (str_lower cuisine)

/-- Transcription of `is_valid_date` (LF1.py, lines 106-111): the lenient
parse succeeds or the `ValueError` is caught and `False` returned. -/
def is_valid_date (date : String) : Bool :=
  (dateutil_parse date).isSome

/-- Transcription of `is_valid_email` (LF1.py, lines 113-118):
`re.match` of the pattern `[^@]+@[^@]+\.[^@]+` at the start of the
string, i.e. a nonempty at-free local part, the first at sign, and a
domain containing a dot with nonempty at-free text on both sides. -/
def is_valid_email (email : String) : Bool :=
  match email.data with
  | [] => false
  | c :: rest => if c == '@' then false else emailAfterLocal rest

/-- Message of the location violation (the f-string of LF1.py, line 135). -/
def locationViolationMsg (v : String) : String :=
  "We currently do not support " ++ v ++
    ". We only support New York (New York, Manhattan, Brooklyn) region. Which location do you want to book for?"

/-- Message of the cuisine violation (the f-string of LF1.py, line 143). -/
def cuisineViolationMsg (v : String) : String :=
  "We currently do not offer " ++ v ++ " cuisine. Can you try a different one?"

/-- Message of the unparsable-date violation (LF1.py, line 153). -/
def dateParseViolationMsg : String :=
  "Please enter a valid reservation date. When would you like to make your reservation?"

/-- Message of the not-in-the-future date violation (LF1.py, line 159). -/
def dateFutureViolationMsg : String :=
  "The reservation date must be in the future. Can you please provide a future date for your reservation?"

/-- Message of the party-size violation (LF1.py, line 172). -/
def partySizeViolationMsg : String :=
  "We accept reservations for up to 10 guests only. How many guests will be attending?"

/-- Message of the email violation (LF1.py, line 180). -/
def emailViolationMsg : String :=
  "Please provide a valid email address."

/-- Stands for the `ValueError` raised by the bare
`datetime.strptime(reservation_date_value, yyyy-mm-dd)` call of line 155,
which `validate_slots` does not catch. -/
def strptimeValueError : String :=
  "ValueError: time data does not match format Y-m-d"

/-- Stands for the `ValueError` raised by the bare `int(...)` call of
line 168, which `validate_slots` does not catch. -/
def intValueError : String :=
  "ValueError: invalid literal for int with base 10"

/-- Email block of `validate_slots` (LF1.py, lines 175-183): the last
check before the `return {'isValid': True}`. -/
def validate_fromEmail (slots : Slots) : Except String ValidationResult :=
  match slots.email with
  | some e =>
    if !is_valid_email e.interpretedValue then
      .ok (build_validation_result false "email" emailViolationMsg)
    else .ok ⟨true, none, none⟩
  | none => .ok ⟨true, none, none⟩

/-- Party-size block of `validate_slots` (LF1.py, lines 167-173):
`int(...)` raises when the interpreted value is not an integer literal;
otherwise the value must lie in `[1, 10]`. -/
def validate_fromPeople (slots : Slots) : Except String ValidationResult :=
  match slots.numberOfPeople with
  | some n =>
    match pyInt n.interpretedValue with
    | none => .error intValueError
    | some k =>
      if k < 1 ∨ k > 10 then
        .ok (build_validation_result false "numberOfPeople" partySizeViolationMsg)
      else validate_fromEmail slots
  | none => validate_fromEmail slots

/-- Date block of `validate_slots` (LF1.py, lines 146-165): lenient parse
check first, then the bare strict parse and the comparison against the
current date; the reservation-time block that follows is `pass`. -/
def validate_fromDate (today : Date) (slots : Slots) : Except String ValidationResult :=
  match slots.reservationDate with
  | some rd =>
    if !is_valid_date rd.interpretedValue then
      .ok (build_validation_result false "reservationDate" dateParseViolationMsg)
    else
      match strptime_Y_m_d rd.interpretedValue with
      | none => .error strptimeValueError
      | some d =>
        if d.key ≤ today.key then
          .ok (build_validation_result false "reservationDate" dateFutureViolationMsg)
        else validate_fromPeople slots
  | none => validate_fromPeople slots

/-- Cuisine block of `validate_slots` (LF1.py, lines 138-144). -/
def validate_fromCuisine (today : Date) (slots : Slots) : Except String ValidationResult :=
  match slots.cuisine with
  | some c =>
    if !is_valid_cuisine c.interpretedValue then
      .ok (build_validation_result false "cuisine" (cuisineViolationMsg c.interpretedValue))
    else validate_fromDate today slots
  | none => validate_fromDate today slots

/-- Transcription of `validate_slots` (LF1.py, lines 120-183), written as
the chain of its early-return blocks: location, cuisine, date, (time:
`pass`), party size, email, final `{'isValid': True}`.  `.error` stands
for an uncaught exception. -/
def validate_slots (today : Date) (slots : Slots) : Except String ValidationResult :=
  match slots.location with
  | some city =>
    if !is_valid_location city.interpretedValue then
      .ok (build_validation_result false "location" (locationViolationMsg city.interpretedValue))
    else validate_fromCuisine today slots
  | none => validate_fromCuisine today slots

/-- Session attributes: the opaque key-value mapping the caller owns. -/
abbrev SessionAttrs := List (String × String)

/-- Message dict `{contentType, content}`. -/
structure Message where
  contentType : String
  content : String
deriving DecidableEq

/-- The `dialogAction` dict of a response; `slotToElicit` is present only
in ElicitSlot responses, and `greeting_intent` passes `None` for it,
hence the doubled `Option`. -/
structure DialogAction where
  type : String
  slotToElicit : Option (Option String)
deriving DecidableEq

/-- The `intent` dict of a response; `close_request` carries no `slots`
key and `elicit_slot` carries no `state` key. -/
structure ResponseIntent where
  name : String
  slots : Option Slots
  state : Option String
deriving DecidableEq

/-- The `sessionState` dict of a response. -/
structure ResponseSessionState where
  sessionAttributes : SessionAttrs
  dialogAction : DialogAction
  intent : ResponseIntent
deriving DecidableEq

/-- A Lex response; `delegate` carries no `messages` key. -/
structure LexResponse where
  sessionState : ResponseSessionState
  messages : Option (List Message)
deriving DecidableEq

/-- Transcription of `close_request` (LF1.py, lines 15-37). -/
def close_request (session_attributes : SessionAttrs) (intent_name : String)
    (message : String) : LexResponse :=
  { sessionState :=
      { sessionAttributes := session_attributes
        dialogAction := { type := "Close", slotToElicit := none }
        intent := { name := intent_name, slots := none, state := some "Fulfilled" } }
    messages := some [{ contentType := "PlainText", content := message }] }

/-- Transcription of `elicit_slot` (LF1.py, lines 39-56). -/
def elicit_slot (session_attributes : SessionAttrs) (intent_name : String)
    (slots : Slots) (slot_to_elicit : Option String) (message : Message) : LexResponse :=
  { sessionState :=
      { sessionAttributes := session_attributes
        dialogAction := { type := "ElicitSlot", slotToElicit := some slot_to_elicit }
        intent := { name := intent_name, slots := some slots, state := none } }
    messages := some [message] }

/-- Transcription of `delegate` (LF1.py, lines 58-71). -/
def delegate (session_attributes : SessionAttrs) (slots : Slots)
    (intent_name : String) : LexResponse :=
  { sessionState :=
      { sessionAttributes := session_attributes
        dialogAction := { type := "Delegate", slotToElicit := none }
        intent := { name := intent_name, slots := some slots, state := some "ReadyForFulfillment" } }
    messages := none }

/-- The `dinning_details` record (LF1.py, lines 195-204): each field holds
the whole slot entry fetched with `slots.get(...)`. -/
structure DinningDetails where
  ReservationType : String
  location : Option SlotValue
  Cuisine : Option SlotValue
  DiningTime : Option SlotValue
  DiningDate : Option SlotValue
  NumberofPeople : Option SlotValue
  Email : Option SlotValue
  PhoneNumber : Option SlotValue
deriving DecidableEq

/-- Transcription of `sqs_send` (LF1.py, lines 74-87): the whole body sits
in a `try` returning `True`, and any exception of the SDK call is caught
and turned into `False`.  The external `boto3` client is the parameter. -/
def sqs_send (client : DinningDetails → Except String String)
    (dinning_details : DinningDetails) : Bool :=
  match client dinning_details with
  | .ok _ => true
  | .error _ => false

/-- Intent dict of an incoming event. -/
structure EventIntent where
  name : String
  slots : Slots
deriving DecidableEq

/-- `sessionState` dict of an incoming event. -/
structure EventSessionState where
  intent : EventIntent
deriving DecidableEq

/-- An incoming Lex event, with the fields the module reads:
`sessionState.intent.name`, `sessionState.intent.slots`,
`invocationSource`, and the optional top-level `sessionAttributes` that
`intent.get('sessionAttributes')` looks up. -/
structure LexEvent where
  sessionState : EventSessionState
  invocationSource : String
  sessionAttributes : Option SessionAttrs
deriving DecidableEq

/-- The assignment `slots[violated_slot] = None` (LF1.py, line 210) on the
fixed-field slot mapping; every violated slot name produced by
`validate_slots` is one of the listed fields. -/
def setSlotNone (slots : Slots) (name : String) : Slots :=
  if name = "location" then { slots with location := none }
  else if name = "cuisine" then { slots with cuisine := none }
  else if name = "reservationDate" then { slots with reservationDate := none }
  else if name = "reservationTime" then { slots with reservationTime := none }
  else if name = "numberOfPeople" then { slots with numberOfPeople := none }
  else if name = "email" then { slots with email := none }
  else if name = "phone_number" then { slots with phone_number := none }
  else slots

/-- Confirmation message of the fulfillment branch (LF1.py, line 228),
byte-for-byte including the mangled apostrophe of the source file. -/
def confirmationMsg : String :=
  "Youâ€™re all set. Expect my suggestions shortly! Have a good day."

/-- Apology message of the fulfillment branch (LF1.py, line 230). -/
def apologyMsg : String :=
  "Sorry, we are facing some issues. Please try again later."

/-- Stands for the `KeyError` a lookup of a missing `violatedSlot` or
`message` key would raise (LF1.py, lines 209, 218); unreachable because
every invalid result of `validate_slots` carries both keys. -/
def violatedSlotKeyError : String :=
  "KeyError: violatedSlot or message"

/-- The `dinning_details` dict literal of LF1.py, lines 195-204: the
whole slot entries fetched with `slots.get(...)`, keyed as in the
source. -/
def dinning_details_of (slots : Slots) : DinningDetails :=
  { ReservationType := "Dining"
    location := slots.location
    Cuisine := slots.cuisine
    DiningTime := slots.reservationTime
    DiningDate := slots.reservationDate
    NumberofPeople := slots.numberOfPeople
    Email := slots.email
    PhoneNumber := slots.phone_number }

/-- Transcription of `dining_suggestion` (LF1.py, lines 187-232).
`.ok none` models the implicit `None` Python returns when the
`invocationSource` is neither hook. -/
def dining_suggestion (client : DinningDetails → Except String String)
    (today : Date) (intent : LexEvent) : Except String (Option LexResponse) :=
  let intent_name := intent.sessionState.intent.name
  let slots := intent.sessionState.intent.slots
  let session_attributes := intent.sessionAttributes.getD []
  let dinning_details : DinningDetails := dinning_details_of slots
  if intent.invocationSource = "DialogCodeHook" then
    match validate_slots today slots with
    | .error e => .error e
    | .ok result =>
      if !result.isValid then
        match result.violatedSlot, result.message with
        | some violated_slot, some msg =>
          .ok (some (elicit_slot session_attributes intent_name
            (setSlotNone slots violated_slot) (some violated_slot)
            { contentType := "PlainText", content := msg }))
        | _, _ => .error violatedSlotKeyError
      else .ok (some (delegate session_attributes slots intent_name))
  else if intent.invocationSource = "FulfillmentCodeHook" then
    let sqs_result := sqs_send client dinning_details
    let message := if sqs_result then confirmationMsg else apologyMsg
    .ok (some (close_request session_attributes intent_name message))
  else .ok none

/-- Greeting prompt (LF1.py, lines 241-244). -/
def greetingMsg : Message :=
  { contentType := "PlainText"
    content := "Hi there, I am your Dining Concierge Bot. How can I help you today? You can ask for restaurant suggestions or specify any cuisine you like!" }

/-- Transcription of `greeting_intent` (LF1.py, lines 234-252): an
open-ended ElicitSlot with `slot_to_elicit = None`. -/
def greeting_intent (intent : LexEvent) : LexResponse :=
  elicit_slot (intent.sessionAttributes.getD []) intent.sessionState.intent.name
    intent.sessionState.intent.slots none greetingMsg

/-- Thank-you message (LF1.py, line 262). -/
def thankyouMsg : String :=
  "Thank you for using Dining Concierge Bot. How can I help you next time?"

/-- Transcription of `thankyou_intent` (LF1.py, lines 255-264). -/
def thankyou_intent (intent : LexEvent) : LexResponse :=
  close_request (intent.sessionAttributes.getD []) intent.sessionState.intent.name
    thankyouMsg

/-- Transcription of `dispatch` (LF1.py, lines 267-279); the fall-through
on an unrecognized intent name is the implicit `None`. -/
def dispatch (client : DinningDetails → Except String String) (today : Date)
    (event : LexEvent) : Except String (Option LexResponse) :=
  let intent_name := event.sessionState.intent.name
  if intent_name = "DiningSuggestionsIntent" then dining_suggestion client today event
  else if intent_name = "GreetingIntent" then .ok (some (greeting_intent event))
  else if intent_name = "ThankYouIntent" then .ok (some (thankyou_intent event))
  else .ok none

/-!
Spec-side description of the validator, written from the words of the
specification (section 4.1): the fields are checked in the fixed priority
order location, cuisine, date, party size, email; absent slots are
skipped; the first violation is reported; if every present-and-checked
field satisfies its rule the result is valid.  It is compared with the
transcribed `validate_slots` in the priority-order theorem.
-/

/-- Spec rule for the reservation date: parses as a calendar date and is
strictly later than the current date. -/
def specDateRule (today : Date) (v : String) : Bool :=
  match dateutil_parse v with
  | some d => decide (today.key < d.key)
  | none => false

/-- Spec rule for the party size: an integer in `[1, 10]`. -/
def specPartyRule (v : String) : Bool :=
  match pyInt v with
  | some k => decide (1 ≤ k ∧ k ≤ 10)
  | none => false

/-- Pair `(isValid, violatedSlot)` the spec prescribes: first violation in
the fixed priority order, skipping absent slots, `(true, none)` when all
present-and-checked fields pass. -/
def spec_first_violation (today : Date) (slots : Slots) : Bool × Option String :=
  if slots.location.any (fun c => !is_valid_location c.interpretedValue) then
    (false, some "location")
  else if slots.cuisine.any (fun c => !is_valid_cuisine c.interpretedValue) then
    (false, some "cuisine")
  else if slots.reservationDate.any (fun c => !specDateRule today c.interpretedValue) then
    (false, some "reservationDate")
  else if slots.numberOfPeople.any (fun c => !specPartyRule c.interpretedValue) then
    (false, some "numberOfPeople")
  else if slots.email.any (fun c => !is_valid_email c.interpretedValue) then
    (false, some "email")
  else (true, none)

/-- The location block falls through: absent or allow-listed. -/
def locationPasses (slots : Slots) : Bool :=
  match slots.location with
  | some c => is_valid_location c.interpretedValue
  | none => true

/-- The cuisine block falls through: absent or allow-listed. -/
def cuisinePasses (slots : Slots) : Bool :=
  match slots.cuisine with
  | some c => is_valid_cuisine c.interpretedValue
  | none => true

/-- The date block falls through: absent, or leniently parsable, strictly
parsable, and strictly later than the current date. -/
def datePasses (today : Date) (slots : Slots) : Bool :=
  match slots.reservationDate with
  | some rd =>
    is_valid_date rd.interpretedValue &&
      (match strptime_Y_m_d rd.interpretedValue with
       | some d => decide (today.key < d.key)
       | none => false)
  | none => true

theorem dateutil_of_strptime {v : String} {d : Date}
    (h : strptime_Y_m_d v = some d) : dateutil_parse v = some d := by
  unfold dateutil_parse
  rw [h]

theorem is_valid_date_of_strptime {v : String} {d : Date}
    (h : strptime_Y_m_d v = some d) : is_valid_date v = true := by
  unfold is_valid_date
  rw [dateutil_of_strptime h]
  rfl

theorem daysInMonth_le_31 (y m : Nat) : daysInMonth y m ≤ 31 := by
  unfold daysInMonth
  split_ifs <;> omega

theorem Date.key_lt_succ (d : Date) (h : ValidDate d) : d.key < d.succ.key := by
  obtain ⟨hy, hm1, hm2, hd1, hd2⟩ := h
  have h31 : daysInMonth d.year d.month ≤ 31 := daysInMonth_le_31 _ _
  unfold Date.succ Date.key
  split_ifs with h1 h2 <;> simp <;> omega

theorem validate_eq_fromCuisine (today : Date) (slots : Slots)
    (h : locationPasses slots = true) :
    validate_slots today slots = validate_fromCuisine today slots := by
  unfold validate_slots
  unfold locationPasses at h
  cases hl : slots.location with
  | none => rfl
  | some c =>
    rw [hl] at h
    simp at h
    simp [h]

theorem fromCuisine_eq_fromDate (today : Date) (slots : Slots)
    (h : cuisinePasses slots = true) :
    validate_fromCuisine today slots = validate_fromDate today slots := by
  unfold validate_fromCuisine
  unfold cuisinePasses at h
  cases hc : slots.cuisine with
  | none => rfl
  | some c =>
    rw [hc] at h
    simp at h
    simp [h]

theorem fromDate_eq_fromPeople (today : Date) (slots : Slots)
    (h : datePasses today slots = true) :
    validate_fromDate today slots = validate_fromPeople slots := by
  unfold validate_fromDate
  unfold datePasses at h
  cases hd : slots.reservationDate with
  | none => rfl
  | some rd =>
    rw [hd] at h
    simp at h
    cases hs : strptime_Y_m_d rd.interpretedValue with
    | none => rw [hs] at h; simp at h
    | some d =>
      rw [hs] at h
      simp at h
      obtain ⟨h1, h2⟩ := h
      simp [h1, hs, if_neg (Nat.not_le.mpr h2)]

theorem validate_eq_fromDate (today : Date) (slots : Slots)
    (h1 : locationPasses slots = true) (h2 : cuisinePasses slots = true) :
    validate_slots today slots = validate_fromDate today slots := by
  rw [validate_eq_fromCuisine today slots h1, fromCuisine_eq_fromDate today slots h2]

theorem validate_eq_fromPeople (today : Date) (slots : Slots)
    (h1 : locationPasses slots = true) (h2 : cuisinePasses slots = true)
    (h3 : datePasses today slots = true) :
    validate_slots today slots = validate_fromPeople slots := by
  rw [validate_eq_fromDate today slots h1 h2, fromDate_eq_fromPeople today slots h3]

theorem fromEmail_spec (slots : Slots) (r : ValidationResult)
    (h : validate_fromEmail slots = .ok r) :
    (r.isValid, r.violatedSlot) =
      if slots.email.any (fun c => !is_valid_email c.interpretedValue) then
        ((false : Bool), (some "email" : Option String))
      else (true, none) := by
  unfold validate_fromEmail at h
  split at h
  · rename_i e heq
    split at h
    · rename_i hv
      injection h with h
      subst h
      have hv2 : is_valid_email e.interpretedValue = false := by simpa using hv
      simp [heq, build_validation_result, hv2]
    · rename_i hv
      injection h with h
      subst h
      simp at hv
      simp [heq, hv]
  · rename_i heq
    injection h with h
    subst h
    simp [heq]

theorem fromPeople_spec (slots : Slots) (r : ValidationResult)
    (h : validate_fromPeople slots = .ok r) :
    (r.isValid, r.violatedSlot) =
      if slots.numberOfPeople.any (fun c => !specPartyRule c.interpretedValue) then
        ((false : Bool), (some "numberOfPeople" : Option String))
      else if slots.email.any (fun c => !is_valid_email c.interpretedValue) then
        (false, some "email")
      else (true, none) := by
  unfold validate_fromPeople at h
  split at h
  · rename_i n heq
    split at h
    · exact absurd h (by simp)
    · rename_i k hk
      split at h
      · rename_i hrange
        injection h with h
        subst h
        have hp : specPartyRule n.interpretedValue = false := by
          unfold specPartyRule
          rw [hk]
          simp only [decide_eq_false_iff_not]
          omega
        simp [heq, build_validation_result, hp]
      · rename_i hrange
        have hp : specPartyRule n.interpretedValue = true := by
          unfold specPartyRule
          rw [hk]
          simp only [decide_eq_true_eq]
          omega
        have h2 := fromEmail_spec slots r h
        simpa [heq, hp] using h2
  · rename_i heq
    have h2 := fromEmail_spec slots r h
    simpa [heq] using h2

theorem fromDate_spec (today : Date) (slots : Slots) (r : ValidationResult)
    (h : validate_fromDate today slots = .ok r) :
    (r.isValid, r.violatedSlot) =
      if slots.reservationDate.any (fun c => !specDateRule today c.interpretedValue) then
        ((false : Bool), (some "reservationDate" : Option String))
      else if slots.numberOfPeople.any (fun c => !specPartyRule c.interpretedValue) then
        (false, some "numberOfPeople")
      else if slots.email.any (fun c => !is_valid_email c.interpretedValue) then
        (false, some "email")
      else (true, none) := by
  unfold validate_fromDate at h
  split at h
  · rename_i rd heq
    split at h
    · rename_i hparse
      injection h with h
      subst h
      have hvd : is_valid_date rd.interpretedValue = false := by simpa using hparse
      have hdu : dateutil_parse rd.interpretedValue = none := by
        unfold is_valid_date at hvd
        cases hdu : dateutil_parse rd.interpretedValue with
        | none => rfl
        | some d => rw [hdu] at hvd; simp at hvd
      have hrule : specDateRule today rd.interpretedValue = false := by
        unfold specDateRule
        rw [hdu]
      simp [heq, build_validation_result, hrule]
    · rename_i hparse
      split at h
      · exact absurd h (by simp)
      · rename_i d hs
        split at h
        · rename_i hle
          injection h with h
          subst h
          have hrule : specDateRule today rd.interpretedValue = false := by
            unfold specDateRule
            rw [dateutil_of_strptime hs]
            simp only [decide_eq_false_iff_not]
            omega
          simp [heq, build_validation_result, hrule]
        · rename_i hle
          have hrule : specDateRule today rd.interpretedValue = true := by
            unfold specDateRule
            rw [dateutil_of_strptime hs]
            simp only [decide_eq_true_eq]
            omega
          have h2 := fromPeople_spec slots r h
          simpa [heq, hrule] using h2
  · rename_i heq
    have h2 := fromPeople_spec slots r h
    simpa [heq] using h2

theorem fromCuisine_spec (today : Date) (slots : Slots) (r : ValidationResult)
    (h : validate_fromCuisine today slots = .ok r) :
    (r.isValid, r.violatedSlot) =
      if slots.cuisine.any (fun c => !is_valid_cuisine c.interpretedValue) then
        ((false : Bool), (some "cuisine" : Option String))
      else if slots.reservationDate.any (fun c => !specDateRule today c.interpretedValue) then
        (false, some "reservationDate")
      else if slots.numberOfPeople.any (fun c => !specPartyRule c.interpretedValue) then
        (false, some "numberOfPeople")
      else if slots.email.any (fun c => !is_valid_email c.interpretedValue) then
        (false, some "email")
      else (true, none) := by
  unfold validate_fromCuisine at h
  split at h
  · rename_i c heq
    split at h
    · rename_i hv
      injection h with h
      subst h
      have hv2 : is_valid_cuisine c.interpretedValue = false := by simpa using hv
      simp [heq, build_validation_result, hv2]
    · rename_i hv
      have hv2 : is_valid_cuisine c.interpretedValue = true := by simpa using hv
      have h2 := fromDate_spec today slots r h
      simpa [heq, hv2] using h2
  · rename_i heq
    have h2 := fromDate_spec today slots r h
    simpa [heq] using h2

theorem validate_ok_invalid_shape (today : Date) (slots : Slots) (r : ValidationResult)
    (h : validate_slots today slots = .ok r) (hr : r.isValid = false) :
    r.violatedSlot.isSome ∧ r.message.isSome := by
  unfold validate_slots validate_fromCuisine validate_fromDate validate_fromPeople
    validate_fromEmail at h
  repeat' split at h
  all_goals first
    | exact Except.noConfusion h
    | (injection h with h; subst h; simp_all [build_validation_result])

theorem fromPeople_not_date (slots : Slots) (r : ValidationResult)
    (h : validate_fromPeople slots = .ok r) :
    r.violatedSlot ≠ some "reservationDate" := by
  unfold validate_fromPeople validate_fromEmail at h
  repeat' split at h
  all_goals first
    | exact Except.noConfusion h
    | (injection h with h; subst h; simp [build_validation_result])

theorem dining_suggestion_attrs (client : DinningDetails → Except String String)
    (today : Date) (e : LexEvent) (r : LexResponse)
    (h : dining_suggestion client today e = .ok (some r)) :
    r.sessionState.sessionAttributes = e.sessionAttributes.getD [] := by
  simp only [dining_suggestion] at h
  repeat' split at h
  all_goals first
    | exact Except.noConfusion h
    | (injection h with h;
       first
         | exact Option.noConfusion h
         | (injection h with h; subst h; simp [elicit_slot, delegate, close_request]))

/-- C1: whenever `validate_slots` returns a result, that result reports the
first violation in the fixed priority order location, cuisine, reservation
date, (time: no validation), party size, email — absent slots skipped,
and `isValid = true` exactly when every present-and-checked field
satisfies its rule — as described by the spec-side
`spec_first_violation`; in particular, when two fields are simultaneously
invalid only the first in order is reported. -/
theorem validate_slots_first_violation_priority (today : Date) (slots : Slots)
    (r : ValidationResult) (h : validate_slots today slots = .ok r) :
    (r.isValid, r.violatedSlot) = spec_first_violation today slots := by
  unfold validate_slots at h
  unfold spec_first_violation
  split at h
  · rename_i c heq
    split at h
    · rename_i hv
      injection h with h
      subst h
      have hv2 : is_valid_location c.interpretedValue = false := by simpa using hv
      simp [heq, build_validation_result, hv2]
    · rename_i hv
      have hv2 : is_valid_location c.interpretedValue = true := by simpa using hv
      have h2 := fromCuisine_spec today slots r h
      simpa [heq, hv2] using h2
  · rename_i heq
    have h2 := fromCuisine_spec today slots r h
    simpa [heq] using h2

/-- C1 witness: with location "Queens" and cuisine "klingon" both invalid,
only the location violation — the first in order — is reported. -/
theorem validate_slots_first_violation_priority_witness :
    ((false : Bool), (some "location" : Option String)) =
      spec_first_violation ⟨2026, 10, 12⟩
        ⟨some ⟨"Queens"⟩, some ⟨"klingon"⟩, none, none, none, none, none⟩ :=
  validate_slots_first_violation_priority ⟨2026, 10, 12⟩
    ⟨some ⟨"Queens"⟩, some ⟨"klingon"⟩, none, none, none, none, none⟩
    (build_validation_result false "location" (locationViolationMsg "Queens")) rfl

/-- C2: on every code path that produces a response (greeting, thank-you,
dialog-phase and fulfillment-phase dining flow), the response's
`sessionState.sessionAttributes` equals the session attributes supplied on
the input event, defaulting to the empty mapping when absent. -/
theorem session_attributes_echoed (client : DinningDetails → Except String String)
    (today : Date) (e : LexEvent) (r : LexResponse)
    (h : dispatch client today e = .ok (some r)) :
    r.sessionState.sessionAttributes = e.sessionAttributes.getD [] := by
  simp only [dispatch] at h
  split at h
  · exact dining_suggestion_attrs client today e r h
  · split at h
    · injection h with h
      injection h with h
      subst h
      simp [greeting_intent, elicit_slot]
    · split at h
      · injection h with h
        injection h with h
        subst h
        simp [thankyou_intent, close_request]
      · injection h with h
        exact Option.noConfusion h

/-- C2 witness: a thank-you event carrying attributes `[("k", "v")]` gets
them echoed back unmodified. -/
theorem session_attributes_echoed_witness :
    (close_request [("k", "v")] "ThankYouIntent" thankyouMsg).sessionState.sessionAttributes
      = (some [("k", "v")] : Option SessionAttrs).getD [] :=
  session_attributes_echoed (fun _ => .ok "") ⟨2026, 10, 12⟩
    { sessionState := { intent := { name := "ThankYouIntent"
                                    slots := ⟨none, none, none, none, none, none, none⟩ } }
      invocationSource := "FulfillmentCodeHook"
      sessionAttributes := some [("k", "v")] }
    (close_request [("k", "v")] "ThankYouIntent" thankyouMsg) rfl

/-- C3: in the dialog phase, when the validator reports a violation the
handler nulls the violating slot in the slot mapping and returns an
ElicitSlot response for that slot carrying the validator's message; when
validation passes it returns a Delegate response whose intent carries the
full slot mapping with state "ReadyForFulfillment" (never a Close or
ElicitSlot); and every invalid validator result does carry a violated
slot and a message, so the ElicitSlot branch is the one taken. -/
theorem dialog_phase_elicit_or_delegate (client : DinningDetails → Except String String)
    (today : Date) (e : LexEvent) (result : ValidationResult)
    (hsrc : e.invocationSource = "DialogCodeHook")
    (hval : validate_slots today e.sessionState.intent.slots = .ok result) :
    dining_suggestion client today e =
      (if result.isValid then
        .ok (some { sessionState := { sessionAttributes := e.sessionAttributes.getD []
                                      dialogAction := { type := "Delegate", slotToElicit := none }
                                      intent := { name := e.sessionState.intent.name
                                                  slots := some e.sessionState.intent.slots
                                                  state := some "ReadyForFulfillment" } }
                    messages := none })
      else
        match result.violatedSlot, result.message with
        | some vs, some m =>
          .ok (some { sessionState := { sessionAttributes := e.sessionAttributes.getD []
                                        dialogAction := { type := "ElicitSlot"
                                                          slotToElicit := some (some vs) }
                                        intent := { name := e.sessionState.intent.name
                                                    slots := some (setSlotNone e.sessionState.intent.slots vs)
                                                    state := none } }
                      messages := some [{ contentType := "PlainText", content := m }] })
        | _, _ => .error violatedSlotKeyError)
    ∧ (result.isValid = false → result.violatedSlot.isSome ∧ result.message.isSome) := by
  constructor
  · simp only [dining_suggestion, hsrc, hval]
    cases hri : result.isValid with
    | true => simp [delegate]
    | false =>
      cases hvs : result.violatedSlot <;> cases hm : result.message <;> simp [elicit_slot]
  · intro hf
    exact validate_ok_invalid_shape today e.sessionState.intent.slots result hval hf

/-- C3 witness: a dialog-phase event whose slots all pass validation gets
the Delegate response with the full slot mapping marked
ReadyForFulfillment. -/
theorem dialog_phase_elicit_or_delegate_witness :
    dining_suggestion (fun _ => .ok "") ⟨2026, 10, 12⟩
      { sessionState := { intent := { name := "DiningSuggestionsIntent"
                                      slots := ⟨some ⟨"nyc"⟩, some ⟨"chinese"⟩, some ⟨"2026-12-01"⟩,
                                                some ⟨"19:00"⟩, some ⟨"4"⟩, some ⟨"a@b.com"⟩, some ⟨"555"⟩⟩ } }
        invocationSource := "DialogCodeHook"
        sessionAttributes := some [("u", "1")] }
      = .ok (some { sessionState := { sessionAttributes := [("u", "1")]
                                      dialogAction := { type := "Delegate", slotToElicit := none }
                                      intent := { name := "DiningSuggestionsIntent"
                                                  slots := some ⟨some ⟨"nyc"⟩, some ⟨"chinese"⟩, some ⟨"2026-12-01"⟩,
                                                                 some ⟨"19:00"⟩, some ⟨"4"⟩, some ⟨"a@b.com"⟩, some ⟨"555"⟩⟩
                                                  state := some "ReadyForFulfillment" } }
                    messages := none }) :=
  (dialog_phase_elicit_or_delegate (fun _ => .ok "") ⟨2026, 10, 12⟩
    { sessionState := { intent := { name := "DiningSuggestionsIntent"
                                    slots := ⟨some ⟨"nyc"⟩, some ⟨"chinese"⟩, some ⟨"2026-12-01"⟩,
                                              some ⟨"19:00"⟩, some ⟨"4"⟩, some ⟨"a@b.com"⟩, some ⟨"555"⟩⟩ } }
      invocationSource := "DialogCodeHook"
      sessionAttributes := some [("u", "1")] }
    ⟨true, none, none⟩ rfl rfl).1

/-- C4: in the fulfillment phase the response is always a Close whose
intent state is "Fulfilled"; the message is the confirmation text when
the queue submission reports success and the apology text otherwise, so
the two outcomes differ only in message text; and a client call that
raises is caught by `sqs_send` and reported as failure. -/
theorem fulfillment_phase_always_fulfilled_close (client : DinningDetails → Except String String)
    (today : Date) (e : LexEvent)
    (hsrc : e.invocationSource = "FulfillmentCodeHook") :
    dining_suggestion client today e =
      .ok (some { sessionState := { sessionAttributes := e.sessionAttributes.getD []
                                    dialogAction := { type := "Close", slotToElicit := none }
                                    intent := { name := e.sessionState.intent.name
                                                slots := none
                                                state := some "Fulfilled" } }
                  messages := some [{ contentType := "PlainText"
                                      content := if sqs_send client (dinning_details_of e.sessionState.intent.slots) then
                                          confirmationMsg
                                        else apologyMsg }] })
    ∧ (∀ d msg, client d = .error msg → sqs_send client d = false) := by
  constructor
  · simp [dining_suggestion, hsrc, close_request]
  · intro d msg hc
    unfold sqs_send
    rw [hc]

/-- C4 witness: a client that raises produces the apology message, still
inside a Close response with state Fulfilled. -/
theorem fulfillment_phase_always_fulfilled_close_witness :
    dining_suggestion (fun _ => .error "boom") ⟨2026, 10, 12⟩
      { sessionState := { intent := { name := "DiningSuggestionsIntent"
                                      slots := ⟨none, none, none, none, none, none, none⟩ } }
        invocationSource := "FulfillmentCodeHook"
        sessionAttributes := none }
      = .ok (some { sessionState := { sessionAttributes := []
                                      dialogAction := { type := "Close", slotToElicit := none }
                                      intent := { name := "DiningSuggestionsIntent"
                                                  slots := none
                                                  state := some "Fulfilled" } }
                    messages := some [{ contentType := "PlainText", content := apologyMsg }] }) :=
  (fulfillment_phase_always_fulfilled_close (fun _ => .error "boom") ⟨2026, 10, 12⟩
    { sessionState := { intent := { name := "DiningSuggestionsIntent"
                                    slots := ⟨none, none, none, none, none, none, none⟩ } }
      invocationSource := "FulfillmentCodeHook"
      sessionAttributes := none } rfl).1

/-- C5: for a present reservation date (with the earlier location and
cuisine blocks passing): an unparsable value is rejected with a violation
targeting "reservationDate"; a value equal to the current date is
rejected (the date must be strictly later than today); and a value one
calendar day in the future is accepted — validation proceeds to the
remaining fields, which can never report a reservationDate violation. -/
theorem reservation_date_validation :
    (∀ today slots v, locationPasses slots = true → cuisinePasses slots = true →
      slots.reservationDate = some { interpretedValue := v } →
      is_valid_date v = false →
      validate_slots today slots =
        .ok (build_validation_result false "reservationDate" dateParseViolationMsg))
    ∧ (∀ today slots v, locationPasses slots = true → cuisinePasses slots = true →
      slots.reservationDate = some { interpretedValue := v } →
      strptime_Y_m_d v = some today →
      validate_slots today slots =
        .ok (build_validation_result false "reservationDate" dateFutureViolationMsg))
    ∧ (∀ today slots v, ValidDate today → locationPasses slots = true →
      cuisinePasses slots = true →
      slots.reservationDate = some { interpretedValue := v } →
      strptime_Y_m_d v = some (Date.succ today) →
      validate_slots today slots = validate_fromPeople slots ∧
      ∀ r, validate_fromPeople slots = .ok r → r.violatedSlot ≠ some "reservationDate") := by
  refine ⟨?_, ?_, ?_⟩
  · intro today slots v h1 h2 h3 hv
    rw [validate_eq_fromDate today slots h1 h2]
    unfold validate_fromDate
    rw [h3]
    simp [hv]
  · intro today slots v h1 h2 h3 hs
    rw [validate_eq_fromDate today slots h1 h2]
    unfold validate_fromDate
    rw [h3]
    simp [is_valid_date_of_strptime hs, hs]
  · intro today slots v hvd h1 h2 h3 hs
    constructor
    · rw [validate_eq_fromDate today slots h1 h2]
      unfold validate_fromDate
      rw [h3]
      have hk := Date.key_lt_succ today hvd
      simp [is_valid_date_of_strptime hs, hs, if_neg (Nat.not_le.mpr hk)]
    · intro r hr
      exact fromPeople_not_date slots r hr

/-- C5 witness: with the clock at 2026-10-12, "tomorrow-ish" is rejected
as unparsable, "2026-10-12" is rejected as not in the future, and
"2026-10-13" passes the date block. -/
theorem reservation_date_validation_witness :
    validate_slots ⟨2026, 10, 12⟩ ⟨none, none, some ⟨"tomorrow-ish"⟩, none, none, none, none⟩
      = .ok (build_validation_result false "reservationDate" dateParseViolationMsg)
    ∧ validate_slots ⟨2026, 10, 12⟩ ⟨none, none, some ⟨"2026-10-12"⟩, none, none, none, none⟩
      = .ok (build_validation_result false "reservationDate" dateFutureViolationMsg)
    ∧ validate_slots ⟨2026, 10, 12⟩ ⟨none, none, some ⟨"2026-10-13"⟩, none, none, none, none⟩
      = validate_fromPeople ⟨none, none, some ⟨"2026-10-13"⟩, none, none, none, none⟩ := by
  refine ⟨?_, ?_, ?_⟩
  · exact reservation_date_validation.1 ⟨2026, 10, 12⟩ _ "tomorrow-ish" rfl rfl rfl rfl
  · exact reservation_date_validation.2.1 ⟨2026, 10, 12⟩ _ "2026-10-12" rfl rfl rfl rfl
  · exact (reservation_date_validation.2.2 ⟨2026, 10, 12⟩
      ⟨none, none, some ⟨"2026-10-13"⟩, none, none, none, none⟩ "2026-10-13"
      (by decide) rfl rfl rfl rfl).1

/-- C6: on fulfillment, the record handed to the queue client is exactly
the `dinning_details` record derived from the current slot mapping: the
type field "Dining" plus location, cuisine, time, date, party size, email
and phone taken from the corresponding slots. -/
theorem fulfillment_reservation_request_fields (client : DinningDetails → Except String String)
    (today : Date) (e : LexEvent)
    (hsrc : e.invocationSource = "FulfillmentCodeHook") :
    dining_suggestion client today e =
      .ok (some (close_request (e.sessionAttributes.getD []) e.sessionState.intent.name
        (if sqs_send client
            { ReservationType := "Dining"
              location := e.sessionState.intent.slots.location
              Cuisine := e.sessionState.intent.slots.cuisine
              DiningTime := e.sessionState.intent.slots.reservationTime
              DiningDate := e.sessionState.intent.slots.reservationDate
              NumberofPeople := e.sessionState.intent.slots.numberOfPeople
              Email := e.sessionState.intent.slots.email
              PhoneNumber := e.sessionState.intent.slots.phone_number }
          then confirmationMsg
          else apologyMsg))) := by
  simp [dining_suggestion, hsrc, dinning_details_of]

/-- C6 witness: a fulfillment event with filled slots submits the derived
record and closes with the confirmation message when the client
succeeds. -/
theorem fulfillment_reservation_request_fields_witness :
    dining_suggestion (fun _ => .ok "msg-id") ⟨2026, 10, 12⟩
      { sessionState := { intent := { name := "DiningSuggestionsIntent"
                                      slots := ⟨some ⟨"nyc"⟩, some ⟨"indian"⟩, some ⟨"2026-12-01"⟩,
                                                some ⟨"19:00"⟩, some ⟨"4"⟩, some ⟨"a@b.com"⟩, some ⟨"555"⟩⟩ } }
        invocationSource := "FulfillmentCodeHook"
        sessionAttributes := none }
      = .ok (some (close_request [] "DiningSuggestionsIntent" confirmationMsg)) :=
  fulfillment_reservation_request_fields (fun _ => .ok "msg-id") ⟨2026, 10, 12⟩
    { sessionState := { intent := { name := "DiningSuggestionsIntent"
                                    slots := ⟨some ⟨"nyc"⟩, some ⟨"indian"⟩, some ⟨"2026-12-01"⟩,
                                              some ⟨"19:00"⟩, some ⟨"4"⟩, some ⟨"a@b.com"⟩, some ⟨"555"⟩⟩ } }
      invocationSource := "FulfillmentCodeHook"
      sessionAttributes := none } rfl

/-- C7: for a present party size whose interpreted value converts to an
integer `k` (with the earlier blocks passing), validation rejects with a
violation targeting "numberOfPeople" exactly when `k` lies outside
`[1, 10]`, and otherwise proceeds to the email check. -/
theorem party_size_range (today : Date) (slots : Slots) (v : String) (k : Int)
    (h1 : locationPasses slots = true) (h2 : cuisinePasses slots = true)
    (h3 : datePasses today slots = true)
    (h4 : slots.numberOfPeople = some { interpretedValue := v })
    (h5 : pyInt v = some k) :
    validate_slots today slots =
      if k < 1 ∨ k > 10 then
        .ok (build_validation_result false "numberOfPeople" partySizeViolationMsg)
      else validate_fromEmail slots := by
  rw [validate_eq_fromPeople today slots h1 h2 h3]
  unfold validate_fromPeople
  rw [h4]
  simp [h5]

/-- C7 witness: a party of 11 is rejected with the numberOfPeople
violation. -/
theorem party_size_range_witness :
    validate_slots ⟨2026, 10, 12⟩ ⟨none, none, none, none, some ⟨"11"⟩, none, none⟩
      = .ok (build_validation_result false "numberOfPeople" partySizeViolationMsg) :=
  party_size_range ⟨2026, 10, 12⟩ ⟨none, none, none, none, some ⟨"11"⟩, none, none⟩
    "11" 11 rfl rfl rfl rfl rfl

/-- C8: a present location is accepted exactly when its lowercased form is
in the fixed allow-list (new york, manhattan, brooklyn, nyc); and
concretely, a dialog-phase event with location "Queens" yields an
ElicitSlot response for slot "location" whose message names the
unsupported region. -/
theorem location_allowlist :
    (∀ today slots v, slots.location = some { interpretedValue := v } →
      validate_slots today slots =
        if ["new york", "manhattan", "brooklyn", "nyc"].contains (str_lower v) then
          validate_fromCuisine today slots
        else .ok (build_validation_result false "location" (locationViolationMsg v)))
    ∧ dining_suggestion (fun _ => .error "unavailable") ⟨2026, 10, 12⟩
        { sessionState := { intent := { name := "DiningSuggestionsIntent"
                                        slots := ⟨some ⟨"Queens"⟩, none, none, none, none, none, none⟩ } }
          invocationSource := "DialogCodeHook"
          sessionAttributes := none }
        = .ok (some { sessionState := { sessionAttributes := []
                                        dialogAction := { type := "ElicitSlot"
                                                          slotToElicit := some (some "location") }
                                        intent := { name := "DiningSuggestionsIntent"
                                                    slots := some ⟨none, none, none, none, none, none, none⟩
                                                    state := none } }
                      messages := some [{ contentType := "PlainText"
                                          content := "We currently do not support Queens. We only support New York (New York, Manhattan, Brooklyn) region. Which location do you want to book for?" }] }) := by
  constructor
  · intro today slots v hloc
    unfold validate_slots is_valid_location
    rw [hloc]
    dsimp only
    generalize ["new york", "manhattan", "brooklyn", "nyc"].contains (str_lower v) = b
    cases b <;> simp
  · rfl

/-- C8 witness: "boston" is not in the allow-list and is rejected with the
location violation. -/
theorem location_allowlist_witness :
    validate_slots ⟨2026, 10, 12⟩ ⟨some ⟨"boston"⟩, none, none, none, none, none, none⟩
      = .ok (build_validation_result false "location" (locationViolationMsg "boston")) :=
  location_allowlist.1 ⟨2026, 10, 12⟩ ⟨some ⟨"boston"⟩, none, none, none, none, none, none⟩
    "boston" rfl

/-- C9: the validator is not total on present reservation dates: the value
"12/25/2026" is accepted by the lenient parse but is not in dashed
year-month-day form, so `validate_slots` raises the uncaught strict-parse
`ValueError` instead of returning a result. -/
theorem date_strict_parse_not_total :
    is_valid_date "12/25/2026" = true
    ∧ validate_slots ⟨2026, 10, 12⟩ ⟨none, none, some ⟨"12/25/2026"⟩, none, none, none, none⟩
        = .error strptimeValueError := ⟨rfl, rfl⟩

/-- C10: the validator is not total on present party sizes: the value
"five" is not a decimal integer string, so `validate_slots` raises the
uncaught `int(...)` `ValueError` instead of returning a result. -/
theorem party_size_int_not_total :
    pyInt "five" = none
    ∧ validate_slots ⟨2026, 10, 12⟩ ⟨none, none, none, none, some ⟨"five"⟩, none, none⟩
        = .error intValueError := ⟨rfl, rfl⟩

end LF1
